import Mathlib

/-!
Shallow embedding of `src/lib/index.js` (quantal-base-model): a thin shim over
the bookshelf-modelbase library.  Each exposed operation delegates to the
underlying bookshelf method with its arguments forwarded verbatim, then
normalizes the settled result: a `.then` handler converts the resolved value
according to the trailing boolean conversion flag, a chain of filtered
`.catch(ErrClass, handler)` clauses re-signals specific bookshelf errors as
application-level errors with fixed constant messages, and a final catch-all
passes every remaining rejection through the `bookshelfToApp` translation
utility of the external quantal-errors package.
-/

set_option linter.unusedVariables false

namespace QuantalBaseModel

/-- Plain key-value attribute data of a row, the JSON representation. -/
abbrev Attrs : Type := List (String × String)

/-- Value resolved by an underlying bookshelf delegate call: JS `null`
(or any falsy absence), a single model instance (attribute data plus
runtime-internal members, abstracted as a `Nat`), or a collection of
instances. -/
inductive BVal : Type where
  | null : BVal
  | model (attrs : Attrs) (internals : Nat) : BVal
  | collection (items : List (Attrs × Nat)) : BVal
  deriving DecidableEq

/-- Value returned to the caller by a shim operation: either a native
bookshelf value passed through unchanged, or a plain JSON value produced
by `toJSON` (no runtime-internal members). -/
inductive JVal : Type where
  | null : JVal
  | model (attrs : Attrs) (internals : Nat) : JVal
  | collection (items : List (Attrs × Nat)) : JVal
  | json (attrs : Attrs) : JVal
  | jsonList (items : List Attrs) : JVal
  deriving DecidableEq

/-- Injection of a native bookshelf value into the result type, leaving it
unchanged (the `return model` path of the source's then-handler). -/
def BVal.asJVal : BVal → JVal
  | BVal.null => JVal.null
  | BVal.model a i => JVal.model a i
  | BVal.collection items => JVal.collection items

/-- JS falsiness test of the resolved value (`if (!model)` in the source):
only `null`/absent is falsy; instances and collections, empty or not, are
truthy objects. -/
def BVal.isNull : BVal → Bool
  | BVal.null => true
  | _ => false

/-- The `model.toJSON()` call of the source: an instance yields its plain
attribute data; a collection yields the list of its members' attribute data;
runtime-internal members are dropped. -/
def BVal.toJSON : BVal → JVal
  | BVal.null => JVal.null
  | BVal.model a _ => JVal.json a
  | BVal.collection items => JVal.jsonList (items.map Prod.fst)

/-- The then-handler shared by every operation of `src/lib/index.js`:
if the conversion flag is false return the model unchanged; if the model
is falsy return null; otherwise return `model.toJSON()`. -/
def thenHandler (bConvertResultToJson : Bool) (model : BVal) : JVal :=
  if !bConvertResultToJson then model.asJVal
  else if model.isNull then JVal.null
  else model.toJSON

/-- Whether a returned value still carries runtime-specific members
(a native instance or native collection, as opposed to plain JSON). -/
def JVal.hasRuntimeMembers : JVal → Bool
  | JVal.model _ _ => true
  | JVal.collection _ => true
  | _ => false

/-- Message carried by an application-level not-found error. -/
def notFoundMsg : String := "NotFoundError"

/-- Message carried by an application-level no-rows-deleted error. -/
def noRowsDeletedMsg : String := "NoRowsDeletedError"

/-- Message carried by an application-level no-rows-updated error. -/
def noRowsUpdatedMsg : String := "NoRowsUpdatedError"

/-- Message of the synchronous factory error for a missing bookshelf handle. -/
def illegalArgMsg : String := "An initialised instance of bookshelf is required"

/-- Errors flowing through an operation's promise chain: the four named
bookshelf error classes (each carrying its own message), the app-level
errors of the quantal-errors taxonomy, and any other error (connectivity,
constraint violation, ...) abstracted by a code and a message. -/
inductive Err : Type where
  | bNotFound (msg : String) : Err
  | bEmpty (msg : String) : Err
  | bNoRowsDeleted (msg : String) : Err
  | bNoRowsUpdated (msg : String) : Err
  | appIllegalArgumentError (msg : String) : Err
  | appNotFoundError (msg : String) : Err
  | appNoRowsDeletedError (msg : String) : Err
  | appNoRowsUpdatedError (msg : String) : Err
  | other (code : Nat) (msg : String) : Err
  deriving DecidableEq

/-- The `instanceof bookshelf.NotFoundError` test of a filtered catch. -/
def Err.isBookshelfNotFound : Err → Bool
  | Err.bNotFound _ => true
  | _ => false

/-- The `instanceof bookshelf.EmptyError` test of a filtered catch. -/
def Err.isBookshelfEmpty : Err → Bool
  | Err.bEmpty _ => true
  | _ => false

/-- The `instanceof bookshelf.NoRowsDeletedError` test of a filtered catch. -/
def Err.isBookshelfNoRowsDeleted : Err → Bool
  | Err.bNoRowsDeleted _ => true
  | _ => false

/-- The `instanceof bookshelf.NoRowsUpdatedError` test of a filtered catch. -/
def Err.isBookshelfNoRowsUpdated : Err → Bool
  | Err.bNoRowsUpdated _ => true
  | _ => false

/-- Whether an error already belongs to the application-level taxonomy of
quantal-errors. -/
def Err.isAppError : Err → Bool
  | Err.appIllegalArgumentError _ => true
  | Err.appNotFoundError _ => true
  | Err.appNoRowsDeletedError _ => true
  | Err.appNoRowsUpdatedError _ => true
  | _ => false

/-- The `.then(model => ...)` step of a promise chain: apply the handler to
a resolved value, propagate a rejection. -/
def thenMap (f : BVal → JVal) : Except Err BVal → Except Err JVal
  | Except.ok v => Except.ok (f v)
  | Except.error e => Except.error e

/-- A bluebird filtered `.catch(ErrClass, () => Promise.reject(r))` step:
when the rejection matches the class test, re-reject with the fixed
replacement error built by the handler; otherwise the rejection passes on
unchanged.  A resolved value passes through. -/
def catchInstanceOf (test : Err → Bool) (replacement : Err) :
    Except Err JVal → Except Err JVal
  | Except.ok v => Except.ok v
  | Except.error e =>
      if test e then Except.error replacement else Except.error e

/-- The final `.catch(err => Promise.reject(f(err)))` step: every remaining
rejection is re-rejected after passing through `f`; a resolved value passes
through. -/
def catchAllMap (f : Err → Err) : Except Err JVal → Except Err JVal
  | Except.ok v => Except.ok v
  | Except.error e => Except.error (f e)

/-- Modelled from the spec: `CommonErrors.utils.bookshelfToApp`, the generic
translation utility of the external quantal-errors package (not part of this
repository's sources).  The spec says it maps database-level error shapes
into the application taxonomy and forwards unrecognized errors unchanged;
since the spec names no concrete database-shape mapping, the model treats
every error as unrecognized and forwards it unchanged. -/
def bookshelfToApp : Err → Err := fun e => e

/-- A translation function that leaves errors already in the application
taxonomy unchanged, as the spec requires of `bookshelfToApp` (app-level
errors are not database-level shapes, hence unrecognized and forwarded
unchanged). -/
def AppPreserving (b2a : Err → Err) : Prop :=
  ∀ e : Err, e.isAppError = true → b2a e = e

/-- Promise chain shared by `findOne`, `create`, `findAll`, `findById` and
`findOrCreate`: then-convert, catch bookshelf NotFoundError, catch bookshelf
EmptyError, then the generic catch-all translation. -/
def findChain (b2a : Err → Err) (bConvertResultToJson : Bool)
    (d : Except Err BVal) : Except Err JVal :=
  catchAllMap b2a
    (catchInstanceOf Err.isBookshelfEmpty (Err.appNotFoundError notFoundMsg)
      (catchInstanceOf Err.isBookshelfNotFound (Err.appNotFoundError notFoundMsg)
        (thenMap (thenHandler bConvertResultToJson) d)))

/-- Promise chain of `destroy`: then-convert, catch bookshelf NotFoundError,
catch bookshelf NoRowsDeletedError, then the generic catch-all translation.
Unlike the find-style chain it has no clause for bookshelf EmptyError. -/
def destroyChain (b2a : Err → Err) (bConvertResultToJson : Bool)
    (d : Except Err BVal) : Except Err JVal :=
  catchAllMap b2a
    (catchInstanceOf Err.isBookshelfNoRowsDeleted
        (Err.appNoRowsDeletedError noRowsDeletedMsg)
      (catchInstanceOf Err.isBookshelfNotFound (Err.appNotFoundError notFoundMsg)
        (thenMap (thenHandler bConvertResultToJson) d)))

/-- Promise chain shared by `update` and `upsert`: then-convert, catch
bookshelf NotFoundError, catch bookshelf EmptyError, catch bookshelf
NoRowsUpdatedError, then the generic catch-all translation. -/
def updateChain (b2a : Err → Err) (bConvertResultToJson : Bool)
    (d : Except Err BVal) : Except Err JVal :=
  catchAllMap b2a
    (catchInstanceOf Err.isBookshelfNoRowsUpdated
        (Err.appNoRowsUpdatedError noRowsUpdatedMsg)
      (catchInstanceOf Err.isBookshelfEmpty (Err.appNotFoundError notFoundMsg)
        (catchInstanceOf Err.isBookshelfNotFound (Err.appNotFoundError notFoundMsg)
          (thenMap (thenHandler bConvertResultToJson) d))))

/-- The shim's `findOne(filter, options, bConvertResultToJson)`: the
underlying delegate (`bookshelf.Model.prototype.constructor.findOne`,
abstracted as `dg`) receives the arguments verbatim; its settled outcome is
normalized by the find-style chain. -/
def findOne {F O : Type} (b2a : Err → Err) (dg : F → O → Bool → Except Err BVal)
    (filter : F) (options : O) (bConvertResultToJson : Bool) : Except Err JVal :=
  findChain b2a bConvertResultToJson (dg filter options bConvertResultToJson)

/-- The shim's `create(data, options, bConvertResultToJson)`. -/
def create {D O : Type} (b2a : Err → Err) (dg : D → O → Bool → Except Err BVal)
    (data : D) (options : O) (bConvertResultToJson : Bool) : Except Err JVal :=
  findChain b2a bConvertResultToJson (dg data options bConvertResultToJson)

/-- The shim's `destroy(options, bConvertResultToJson)`. -/
def destroy {O : Type} (b2a : Err → Err) (dg : O → Bool → Except Err BVal)
    (options : O) (bConvertResultToJson : Bool) : Except Err JVal :=
  destroyChain b2a bConvertResultToJson (dg options bConvertResultToJson)

/-- The shim's `findAll(filter, options, bConvertResultToJson)`. -/
def findAll {F O : Type} (b2a : Err → Err) (dg : F → O → Bool → Except Err BVal)
    (filter : F) (options : O) (bConvertResultToJson : Bool) : Except Err JVal :=
  findChain b2a bConvertResultToJson (dg filter options bConvertResultToJson)

/-- The shim's `findWhere(filter, options, bConvertResultToJson)`, whose
body is `return this.findAll(filter, options, bConvertResultToJson)`. -/
def findWhere {F O : Type} (b2a : Err → Err) (dg : F → O → Bool → Except Err BVal)
    (filter : F) (options : O) (bConvertResultToJson : Bool) : Except Err JVal :=
  findAll b2a dg filter options bConvertResultToJson

/-- The shim's `findById(id, options, bConvertResultToJson)`. -/
def findById {I O : Type} (b2a : Err → Err) (dg : I → O → Bool → Except Err BVal)
    (id : I) (options : O) (bConvertResultToJson : Bool) : Except Err JVal :=
  findChain b2a bConvertResultToJson (dg id options bConvertResultToJson)

/-- The shim's `findOrCreate(data, options, bConvertResultToJson)`. -/
def findOrCreate {D O : Type} (b2a : Err → Err) (dg : D → O → Bool → Except Err BVal)
    (data : D) (options : O) (bConvertResultToJson : Bool) : Except Err JVal :=
  findChain b2a bConvertResultToJson (dg data options bConvertResultToJson)

/-- The shim's `update(data, options, bConvertResultToJson)`. -/
def update {D O : Type} (b2a : Err → Err) (dg : D → O → Bool → Except Err BVal)
    (data : D) (options : O) (bConvertResultToJson : Bool) : Except Err JVal :=
  updateChain b2a bConvertResultToJson (dg data options bConvertResultToJson)

/-- The shim's `upsert(selectData, updateData, options, bConvertResultToJson)`. -/
def upsert {S U O : Type} (b2a : Err → Err)
    (dg : S → U → O → Bool → Except Err BVal)
    (selectData : S) (updateData : U) (options : O)
    (bConvertResultToJson : Bool) : Except Err JVal :=
  updateChain b2a bConvertResultToJson
    (dg selectData updateData options bConvertResultToJson)

/-- The bookshelf runtime handle, abstracted to the one piece of its state
the shim touches: `pluginInstalls` counts how many times
`bookshelf.plugin(...)` has been invoked on this handle. -/
structure Bookshelf : Type where
  pluginInstalls : Nat
  deriving DecidableEq

/-- The model definition produced by the factory: it carries the `validate`
member set from the supplied validations (`ModelBase.extend` in the source)
and no other own state. -/
structure ModelDef (V : Type) : Type where
  validate : Option V
  deriving DecidableEq

/-- The factory `BaseModel(bookshelf, params, validations)` of
`src/lib/index.js`: a missing bookshelf handle throws
`CommonErrors.IllegalArgumentError` synchronously; otherwise the
bookshelf-modelbase pluggable extension is installed on the handle
(unconditionally, `bookshelf.plugin(...)`) and the extended model definition
is returned together with the updated handle state. -/
def BaseModel {P V : Type} (bookshelf : Option Bookshelf) (params : P)
    (validations : Option V) : Except Err (Bookshelf × ModelDef V) :=
  match bookshelf with
  | none => Except.error (Err.appIllegalArgumentError illegalArgMsg)
  | some bs =>
      Except.ok
        ({ pluginInstalls := bs.pluginInstalls + 1 }, { validate := validations })

/-- One operation invocation, recorded with the outcome the underlying
bookshelf delegate settles with and the conversion flag the caller passed. -/
inductive OpCall : Type where
  | findOneCall (d : Except Err BVal) (flag : Bool) : OpCall
  | createCall (d : Except Err BVal) (flag : Bool) : OpCall
  | destroyCall (d : Except Err BVal) (flag : Bool) : OpCall
  | findAllCall (d : Except Err BVal) (flag : Bool) : OpCall
  | findWhereCall (d : Except Err BVal) (flag : Bool) : OpCall
  | findByIdCall (d : Except Err BVal) (flag : Bool) : OpCall
  | findOrCreateCall (d : Except Err BVal) (flag : Bool) : OpCall
  | updateCall (d : Except Err BVal) (flag : Bool) : OpCall
  | upsertCall (d : Except Err BVal) (flag : Bool) : OpCall

/-- Execution of one operation against a model definition, threading the
definition explicitly (the JS methods receive it as `this`).  Translated
from the source: no method body assigns to any member of the definition, so
each call returns the definition it received. -/
def applyOp {V : Type} (b2a : Err → Err) (m : ModelDef V) (c : OpCall) :
    ModelDef V × Except Err JVal :=
  match c with
  | OpCall.findOneCall d flag => (m, findChain b2a flag d)
  | OpCall.createCall d flag => (m, findChain b2a flag d)
  | OpCall.destroyCall d flag => (m, destroyChain b2a flag d)
  | OpCall.findAllCall d flag => (m, findChain b2a flag d)
  | OpCall.findWhereCall d flag => (m, findChain b2a flag d)
  | OpCall.findByIdCall d flag => (m, findChain b2a flag d)
  | OpCall.findOrCreateCall d flag => (m, findChain b2a flag d)
  | OpCall.updateCall d flag => (m, updateChain b2a flag d)
  | OpCall.upsertCall d flag => (m, updateChain b2a flag d)

/-- Execution of a sequence of operation calls against a model definition,
returning the final definition and the list of results. -/
def runOps {V : Type} (b2a : Err → Err) (m : ModelDef V) :
    List OpCall → ModelDef V × List (Except Err JVal)
  | [] => (m, [])
  | c :: cs =>
      let step := applyOp b2a m c
      let rest := runOps b2a step.1 cs
      (rest.1, step.2 :: rest.2)

/-- Sample message used for concrete underlying errors in closed statements. -/
def emptySignalMsg : String := "EmptyResponse"

@[simp]
theorem thenMap_ok (f : BVal → JVal) (v : BVal) :
    thenMap f (Except.ok v) = Except.ok (f v) := rfl

@[simp]
theorem thenMap_error (f : BVal → JVal) (e : Err) :
    thenMap f (Except.error e) = Except.error e := rfl

@[simp]
theorem catchInstanceOf_ok (t : Err → Bool) (r : Err) (v : JVal) :
    catchInstanceOf t r (Except.ok v) = Except.ok v := rfl

theorem catchInstanceOf_error (t : Err → Bool) (r : Err) (e : Err) :
    catchInstanceOf t r (Except.error e)
      = if t e then Except.error r else Except.error e := rfl

@[simp]
theorem catchAllMap_ok (f : Err → Err) (v : JVal) :
    catchAllMap f (Except.ok v) = Except.ok v := rfl

@[simp]
theorem catchAllMap_error (f : Err → Err) (e : Err) :
    catchAllMap f (Except.error e) = Except.error (f e) := rfl

theorem findChain_ok (b2a : Err → Err) (flag : Bool) (v : BVal) :
    findChain b2a flag (Except.ok v) = Except.ok (thenHandler flag v) := rfl

theorem destroyChain_ok (b2a : Err → Err) (flag : Bool) (v : BVal) :
    destroyChain b2a flag (Except.ok v) = Except.ok (thenHandler flag v) := rfl

theorem updateChain_ok (b2a : Err → Err) (flag : Bool) (v : BVal) :
    updateChain b2a flag (Except.ok v) = Except.ok (thenHandler flag v) := rfl

theorem findChain_bNotFound (b2a : Err → Err) (hb : AppPreserving b2a)
    (flag : Bool) (msg : String) :
    findChain b2a flag (Except.error (Err.bNotFound msg))
      = Except.error (Err.appNotFoundError notFoundMsg) := by
  have h := hb (Err.appNotFoundError notFoundMsg) rfl
  simp [findChain, catchInstanceOf, Err.isBookshelfNotFound, Err.isBookshelfEmpty, h]

theorem findChain_bEmpty (b2a : Err → Err) (hb : AppPreserving b2a)
    (flag : Bool) (msg : String) :
    findChain b2a flag (Except.error (Err.bEmpty msg))
      = Except.error (Err.appNotFoundError notFoundMsg) := by
  have h := hb (Err.appNotFoundError notFoundMsg) rfl
  simp [findChain, catchInstanceOf, Err.isBookshelfNotFound, Err.isBookshelfEmpty, h]

theorem destroyChain_bNotFound (b2a : Err → Err) (hb : AppPreserving b2a)
    (flag : Bool) (msg : String) :
    destroyChain b2a flag (Except.error (Err.bNotFound msg))
      = Except.error (Err.appNotFoundError notFoundMsg) := by
  have h := hb (Err.appNotFoundError notFoundMsg) rfl
  simp [destroyChain, catchInstanceOf, Err.isBookshelfNotFound,
    Err.isBookshelfNoRowsDeleted, h]

theorem destroyChain_bNoRowsDeleted (b2a : Err → Err) (hb : AppPreserving b2a)
    (flag : Bool) (msg : String) :
    destroyChain b2a flag (Except.error (Err.bNoRowsDeleted msg))
      = Except.error (Err.appNoRowsDeletedError noRowsDeletedMsg) := by
  have h := hb (Err.appNoRowsDeletedError noRowsDeletedMsg) rfl
  simp [destroyChain, catchInstanceOf, Err.isBookshelfNotFound,
    Err.isBookshelfNoRowsDeleted, h]

theorem destroyChain_bEmpty (b2a : Err → Err) (flag : Bool) (msg : String) :
    destroyChain b2a flag (Except.error (Err.bEmpty msg))
      = Except.error (b2a (Err.bEmpty msg)) := rfl

theorem updateChain_bNotFound (b2a : Err → Err) (hb : AppPreserving b2a)
    (flag : Bool) (msg : String) :
    updateChain b2a flag (Except.error (Err.bNotFound msg))
      = Except.error (Err.appNotFoundError notFoundMsg) := by
  have h := hb (Err.appNotFoundError notFoundMsg) rfl
  simp [updateChain, catchInstanceOf, Err.isBookshelfNotFound, Err.isBookshelfEmpty,
    Err.isBookshelfNoRowsUpdated, h]

theorem updateChain_bEmpty (b2a : Err → Err) (hb : AppPreserving b2a)
    (flag : Bool) (msg : String) :
    updateChain b2a flag (Except.error (Err.bEmpty msg))
      = Except.error (Err.appNotFoundError notFoundMsg) := by
  have h := hb (Err.appNotFoundError notFoundMsg) rfl
  simp [updateChain, catchInstanceOf, Err.isBookshelfNotFound, Err.isBookshelfEmpty,
    Err.isBookshelfNoRowsUpdated, h]

theorem updateChain_bNoRowsUpdated (b2a : Err → Err) (hb : AppPreserving b2a)
    (flag : Bool) (msg : String) :
    updateChain b2a flag (Except.error (Err.bNoRowsUpdated msg))
      = Except.error (Err.appNoRowsUpdatedError noRowsUpdatedMsg) := by
  have h := hb (Err.appNoRowsUpdatedError noRowsUpdatedMsg) rfl
  simp [updateChain, catchInstanceOf, Err.isBookshelfNotFound, Err.isBookshelfEmpty,
    Err.isBookshelfNoRowsUpdated, h]

theorem findChain_uncaught (b2a : Err → Err) (flag : Bool) (e : Err)
    (h1 : e.isBookshelfNotFound = false) (h2 : e.isBookshelfEmpty = false) :
    findChain b2a flag (Except.error e) = Except.error (b2a e) := by
  simp [findChain, catchInstanceOf, h1, h2]

theorem destroyChain_uncaught (b2a : Err → Err) (flag : Bool) (e : Err)
    (h1 : e.isBookshelfNotFound = false)
    (h3 : e.isBookshelfNoRowsDeleted = false) :
    destroyChain b2a flag (Except.error e) = Except.error (b2a e) := by
  simp [destroyChain, catchInstanceOf, h1, h3]

theorem updateChain_uncaught (b2a : Err → Err) (flag : Bool) (e : Err)
    (h1 : e.isBookshelfNotFound = false) (h2 : e.isBookshelfEmpty = false)
    (h4 : e.isBookshelfNoRowsUpdated = false) :
    updateChain b2a flag (Except.error e) = Except.error (b2a e) := by
  simp [updateChain, catchInstanceOf, h1, h2, h4]

theorem findChain_rejects (b2a : Err → Err) (flag : Bool) (e : Err) :
    ∃ e2, findChain b2a flag (Except.error e) = Except.error e2 := by
  cases e <;> exact ⟨_, rfl⟩

theorem destroyChain_rejects (b2a : Err → Err) (flag : Bool) (e : Err) :
    ∃ e2, destroyChain b2a flag (Except.error e) = Except.error e2 := by
  cases e <;> exact ⟨_, rfl⟩

theorem updateChain_rejects (b2a : Err → Err) (flag : Bool) (e : Err) :
    ∃ e2, updateChain b2a flag (Except.error e) = Except.error e2 := by
  cases e <;> exact ⟨_, rfl⟩

theorem applyOp_fst {V : Type} (b2a : Err → Err) (m : ModelDef V) (c : OpCall) :
    (applyOp b2a m c).1 = m := by
  cases c <;> rfl

theorem runOps_fst {V : Type} (b2a : Err → Err) (m : ModelDef V)
    (cs : List OpCall) : (runOps b2a m cs).1 = m := by
  induction cs generalizing m with
  | nil => rfl
  | cons c cs ih =>
      show (runOps b2a (applyOp b2a m c).1 cs).1 = m
      rw [applyOp_fst]
      exact ih m

/-- C3: calling the model factory with a missing (absent) bookshelf runtime
handle throws `IllegalArgumentError` synchronously — in the embedding, the
factory itself returns the error, as opposed to a rejected operation result —
and with a present handle no such error is thrown at construction time (the
factory returns a model definition). -/
theorem claim_C3_factory_requires_handle :
    (∀ (P V : Type) (p : P) (v : Option V),
        BaseModel none p v
          = Except.error (Err.appIllegalArgumentError illegalArgMsg))
    ∧ (∀ (P V : Type) (p : P) (v : Option V) (bs : Bookshelf),
        ∃ r, BaseModel (some bs) p v = Except.ok r) :=
  ⟨fun _ _ _ _ => rfl, fun _ _ _ _ _ => ⟨_, rfl⟩⟩

/-- C5: `findWhere` is a pure alias for `findAll` — for every translation
function, delegate, filter, options bag and conversion flag, the two
operations produce exactly the same result or rejection. -/
theorem claim_C5_findWhere_is_findAll :
    ∀ (F O : Type) (b2a : Err → Err) (dg : F → O → Bool → Except Err BVal)
      (filter : F) (options : O) (flag : Bool),
      findWhere b2a dg filter options flag = findAll b2a dg filter options flag :=
  fun _ _ _ _ _ _ _ => rfl

/-- C7 (counterexample): the factory has no initialization guard.  Starting
from a handle on which the extension was never installed, one factory call
installs it once, and a second call on the returned handle installs it a
second time (the install count reaches 2, not 1 as the claim would have). -/
theorem claim_C7_counterexample :
    BaseModel (some { pluginInstalls := 0 }) (0 : Nat) (none : Option Nat)
      = Except.ok ({ pluginInstalls := 1 }, { validate := none })
    ∧ BaseModel (some { pluginInstalls := 1 }) (0 : Nat) (none : Option Nat)
      = Except.ok ({ pluginInstalls := 2 }, { validate := none })
    ∧ (2 : Nat) ≠ 1 :=
  ⟨rfl, rfl, by decide⟩

/-- C7 (amended): the factory installs the pluggable extension
unconditionally on every call — there is no initialization check — so
calling the factory twice on the same runtime handle installs the extension
twice (each successful call increments the handle's install count by one). -/
theorem claim_C7_amended :
    ∀ (P V : Type) (p : P) (v : Option V) (bs : Bookshelf),
      BaseModel (some bs) p v
        = Except.ok
            ({ pluginInstalls := bs.pluginInstalls + 1 }, { validate := v }) :=
  fun _ _ _ _ _ => rfl

/-- C9: the model definition holds no mutable state across calls — running
any sequence of operation calls (with any translation function, any delegate
outcomes and any conversion flags) leaves the definition, and in particular
its validation schema, unchanged. -/
theorem claim_C9_definition_immutable :
    ∀ (V : Type) (b2a : Err → Err) (m : ModelDef V) (cs : List OpCall),
      (runOps b2a m cs).1 = m ∧ ((runOps b2a m cs).1).validate = m.validate :=
  fun V b2a m cs => ⟨runOps_fst b2a m cs, by rw [runOps_fst]⟩

/-- C2: for every operation and every successful delegate result, with the
conversion flag false the operation returns the delegate's result unchanged
(including null and empty results); with the flag true a null delegate
result is returned as null and any other delegate result is returned as its
plain key-value representation (instance attributes, or the attributes of
each member of a collection) with no runtime-specific members. -/
theorem claim_C2_conversion_flag :
    (∀ v : BVal, thenHandler false v = v.asJVal)
    ∧ thenHandler true BVal.null = JVal.null
    ∧ (∀ v : BVal, (thenHandler true v).hasRuntimeMembers = false)
    ∧ (∀ (a : Attrs) (i : Nat), thenHandler true (BVal.model a i) = JVal.json a)
    ∧ (∀ items : List (Attrs × Nat),
        thenHandler true (BVal.collection items)
          = JVal.jsonList (items.map Prod.fst))
    ∧ (∀ (F O I D S U : Type) (b2a : Err → Err) (flag : Bool) (v : BVal),
        (∀ (dg : F → O → Bool → Except Err BVal) (f : F) (o : O),
            dg f o flag = Except.ok v →
            findOne b2a dg f o flag = Except.ok (thenHandler flag v))
        ∧ (∀ (dg : D → O → Bool → Except Err BVal) (d : D) (o : O),
            dg d o flag = Except.ok v →
            create b2a dg d o flag = Except.ok (thenHandler flag v))
        ∧ (∀ (dg : O → Bool → Except Err BVal) (o : O),
            dg o flag = Except.ok v →
            destroy b2a dg o flag = Except.ok (thenHandler flag v))
        ∧ (∀ (dg : F → O → Bool → Except Err BVal) (f : F) (o : O),
            dg f o flag = Except.ok v →
            findAll b2a dg f o flag = Except.ok (thenHandler flag v))
        ∧ (∀ (dg : F → O → Bool → Except Err BVal) (f : F) (o : O),
            dg f o flag = Except.ok v →
            findWhere b2a dg f o flag = Except.ok (thenHandler flag v))
        ∧ (∀ (dg : I → O → Bool → Except Err BVal) (i : I) (o : O),
            dg i o flag = Except.ok v →
            findById b2a dg i o flag = Except.ok (thenHandler flag v))
        ∧ (∀ (dg : D → O → Bool → Except Err BVal) (d : D) (o : O),
            dg d o flag = Except.ok v →
            findOrCreate b2a dg d o flag = Except.ok (thenHandler flag v))
        ∧ (∀ (dg : D → O → Bool → Except Err BVal) (d : D) (o : O),
            dg d o flag = Except.ok v →
            update b2a dg d o flag = Except.ok (thenHandler flag v))
        ∧ (∀ (dg : S → U → O → Bool → Except Err BVal) (s : S) (u : U) (o : O),
            dg s u o flag = Except.ok v →
            upsert b2a dg s u o flag = Except.ok (thenHandler flag v))) := by
  refine ⟨fun v => rfl, rfl, fun v => ?_, fun a i => rfl, fun items => rfl, ?_⟩
  · cases v <;> rfl
  · intro F O I D S U b2a flag v
    refine ⟨fun dg f o h => ?_, fun dg d o h => ?_, fun dg o h => ?_,
      fun dg f o h => ?_, fun dg f o h => ?_, fun dg i o h => ?_,
      fun dg d o h => ?_, fun dg d o h => ?_, fun dg s u o h => ?_⟩
    · show findChain b2a flag (dg f o flag) = _
      rw [h]; exact findChain_ok b2a flag v
    · show findChain b2a flag (dg d o flag) = _
      rw [h]; exact findChain_ok b2a flag v
    · show destroyChain b2a flag (dg o flag) = _
      rw [h]; exact destroyChain_ok b2a flag v
    · show findChain b2a flag (dg f o flag) = _
      rw [h]; exact findChain_ok b2a flag v
    · show findChain b2a flag (dg f o flag) = _
      rw [h]; exact findChain_ok b2a flag v
    · show findChain b2a flag (dg i o flag) = _
      rw [h]; exact findChain_ok b2a flag v
    · show findChain b2a flag (dg d o flag) = _
      rw [h]; exact findChain_ok b2a flag v
    · show updateChain b2a flag (dg d o flag) = _
      rw [h]; exact updateChain_ok b2a flag v
    · show updateChain b2a flag (dg s u o flag) = _
      rw [h]; exact updateChain_ok b2a flag v

/-- C2 (witness): concrete instances of the conversion rule — a delegate
resolving with an instance is returned, with the flag true, as its plain
attribute data, and with the flag false, unchanged. -/
theorem claim_C2_witness :
    findOne bookshelfToApp
        (fun (_ : Nat) (_ : Nat) (_ : Bool) => Except.ok (BVal.model [] 5)) 0 0 true
      = Except.ok (thenHandler true (BVal.model [] 5))
    ∧ destroy bookshelfToApp
        (fun (_ : Nat) (_ : Bool) => Except.ok (BVal.model [] 5)) 0 false
      = Except.ok (thenHandler false (BVal.model [] 5)) :=
  ⟨(claim_C2_conversion_flag.2.2.2.2.2 Nat Nat Nat Nat Nat Nat bookshelfToApp
      true (BVal.model [] 5)).1 _ 0 0 rfl,
   (claim_C2_conversion_flag.2.2.2.2.2 Nat Nat Nat Nat Nat Nat bookshelfToApp
      false (BVal.model [] 5)).2.2.1 _ 0 rfl⟩

/-- C4: when the underlying library signals that a delete affected zero rows,
`destroy` rejects with the application-level `NoRowsDeletedError`; when it
signals that an update affected zero rows, `update` and `upsert` reject with
the application-level `NoRowsUpdatedError` (for any translation function
that leaves application-level errors unchanged, as the spec requires of
`bookshelfToApp`). -/
theorem claim_C4_zero_rows_errors :
    ∀ (O D S U : Type) (b2a : Err → Err), AppPreserving b2a →
    ∀ (msg : String) (flag : Bool),
    (∀ (dg : O → Bool → Except Err BVal) (o : O),
        dg o flag = Except.error (Err.bNoRowsDeleted msg) →
        destroy b2a dg o flag
          = Except.error (Err.appNoRowsDeletedError noRowsDeletedMsg))
    ∧ (∀ (dg : D → O → Bool → Except Err BVal) (d : D) (o : O),
        dg d o flag = Except.error (Err.bNoRowsUpdated msg) →
        update b2a dg d o flag
          = Except.error (Err.appNoRowsUpdatedError noRowsUpdatedMsg))
    ∧ (∀ (dg : S → U → O → Bool → Except Err BVal) (s : S) (u : U) (o : O),
        dg s u o flag = Except.error (Err.bNoRowsUpdated msg) →
        upsert b2a dg s u o flag
          = Except.error (Err.appNoRowsUpdatedError noRowsUpdatedMsg)) := by
  intro O D S U b2a hb msg flag
  refine ⟨fun dg o h => ?_, fun dg d o h => ?_, fun dg s u o h => ?_⟩
  · show destroyChain b2a flag (dg o flag) = _
    rw [h]; exact destroyChain_bNoRowsDeleted b2a hb flag msg
  · show updateChain b2a flag (dg d o flag) = _
    rw [h]; exact updateChain_bNoRowsUpdated b2a hb flag msg
  · show updateChain b2a flag (dg s u o flag) = _
    rw [h]; exact updateChain_bNoRowsUpdated b2a hb flag msg

/-- C4 (witness): concrete zero-rows rejections for `destroy` and `upsert`
under the spec-modelled translation. -/
theorem claim_C4_witness :
    destroy bookshelfToApp
        (fun (_ : Nat) (_ : Bool) =>
          Except.error (Err.bNoRowsDeleted emptySignalMsg)) 0 true
      = Except.error (Err.appNoRowsDeletedError noRowsDeletedMsg)
    ∧ upsert bookshelfToApp
        (fun (_ : Nat) (_ : Nat) (_ : Nat) (_ : Bool) =>
          Except.error (Err.bNoRowsUpdated emptySignalMsg)) 0 0 0 true
      = Except.error (Err.appNoRowsUpdatedError noRowsUpdatedMsg) :=
  ⟨(claim_C4_zero_rows_errors Nat Nat Nat Nat bookshelfToApp (fun _ _ => rfl)
      emptySignalMsg true).1 _ 0 rfl,
   (claim_C4_zero_rows_errors Nat Nat Nat Nat bookshelfToApp (fun _ _ => rfl)
      emptySignalMsg true).2.2 _ 0 0 0 rfl⟩

/-- C1 (counterexample): the not-found/empty mapping is not uniform —
`destroy` has no catch clause for the bookshelf empty-result signal, so when
its delegate rejects with that signal, `destroy` rejects with the
generically translated error (under the spec-modelled translation, the
untouched bookshelf empty error), not with the application-level
`NotFoundError` that the claim requires. -/
theorem claim_C1_counterexample :
    destroy bookshelfToApp
        (fun (_ : Nat) (_ : Bool) => Except.error (Err.bEmpty emptySignalMsg)) 0 true
      = Except.error (Err.bEmpty emptySignalMsg)
    ∧ Err.bEmpty emptySignalMsg ≠ Err.appNotFoundError notFoundMsg :=
  ⟨rfl, by decide⟩

/-- C1 (amended): every one of the nine operations maps the underlying
library's not-found signal to the application-level `NotFoundError`; every
operation except `destroy` also maps the underlying empty-result signal to
`NotFoundError`; `destroy` instead passes the empty-result signal to the
generic translation step.  Stated for any translation function that leaves
application-level errors unchanged, as the spec requires of
`bookshelfToApp`. -/
theorem claim_C1_amended :
    ∀ (F O I D S U : Type) (b2a : Err → Err), AppPreserving b2a →
    ∀ (msg : String) (flag : Bool),
    ((∀ (dg : F → O → Bool → Except Err BVal) (f : F) (o : O),
        dg f o flag = Except.error (Err.bNotFound msg) →
        findOne b2a dg f o flag = Except.error (Err.appNotFoundError notFoundMsg))
      ∧ (∀ (dg : D → O → Bool → Except Err BVal) (d : D) (o : O),
          dg d o flag = Except.error (Err.bNotFound msg) →
          create b2a dg d o flag = Except.error (Err.appNotFoundError notFoundMsg))
      ∧ (∀ (dg : O → Bool → Except Err BVal) (o : O),
          dg o flag = Except.error (Err.bNotFound msg) →
          destroy b2a dg o flag = Except.error (Err.appNotFoundError notFoundMsg))
      ∧ (∀ (dg : F → O → Bool → Except Err BVal) (f : F) (o : O),
          dg f o flag = Except.error (Err.bNotFound msg) →
          findAll b2a dg f o flag = Except.error (Err.appNotFoundError notFoundMsg))
      ∧ (∀ (dg : F → O → Bool → Except Err BVal) (f : F) (o : O),
          dg f o flag = Except.error (Err.bNotFound msg) →
          findWhere b2a dg f o flag
            = Except.error (Err.appNotFoundError notFoundMsg))
      ∧ (∀ (dg : I → O → Bool → Except Err BVal) (i : I) (o : O),
          dg i o flag = Except.error (Err.bNotFound msg) →
          findById b2a dg i o flag
            = Except.error (Err.appNotFoundError notFoundMsg))
      ∧ (∀ (dg : D → O → Bool → Except Err BVal) (d : D) (o : O),
          dg d o flag = Except.error (Err.bNotFound msg) →
          findOrCreate b2a dg d o flag
            = Except.error (Err.appNotFoundError notFoundMsg))
      ∧ (∀ (dg : D → O → Bool → Except Err BVal) (d : D) (o : O),
          dg d o flag = Except.error (Err.bNotFound msg) →
          update b2a dg d o flag = Except.error (Err.appNotFoundError notFoundMsg))
      ∧ (∀ (dg : S → U → O → Bool → Except Err BVal) (s : S) (u : U) (o : O),
          dg s u o flag = Except.error (Err.bNotFound msg) →
          upsert b2a dg s u o flag
            = Except.error (Err.appNotFoundError notFoundMsg)))
    ∧ ((∀ (dg : F → O → Bool → Except Err BVal) (f : F) (o : O),
        dg f o flag = Except.error (Err.bEmpty msg) →
        findOne b2a dg f o flag = Except.error (Err.appNotFoundError notFoundMsg))
      ∧ (∀ (dg : D → O → Bool → Except Err BVal) (d : D) (o : O),
          dg d o flag = Except.error (Err.bEmpty msg) →
          create b2a dg d o flag = Except.error (Err.appNotFoundError notFoundMsg))
      ∧ (∀ (dg : F → O → Bool → Except Err BVal) (f : F) (o : O),
          dg f o flag = Except.error (Err.bEmpty msg) →
          findAll b2a dg f o flag = Except.error (Err.appNotFoundError notFoundMsg))
      ∧ (∀ (dg : F → O → Bool → Except Err BVal) (f : F) (o : O),
          dg f o flag = Except.error (Err.bEmpty msg) →
          findWhere b2a dg f o flag
            = Except.error (Err.appNotFoundError notFoundMsg))
      ∧ (∀ (dg : I → O → Bool → Except Err BVal) (i : I) (o : O),
          dg i o flag = Except.error (Err.bEmpty msg) →
          findById b2a dg i o flag
            = Except.error (Err.appNotFoundError notFoundMsg))
      ∧ (∀ (dg : D → O → Bool → Except Err BVal) (d : D) (o : O),
          dg d o flag = Except.error (Err.bEmpty msg) →
          findOrCreate b2a dg d o flag
            = Except.error (Err.appNotFoundError notFoundMsg))
      ∧ (∀ (dg : D → O → Bool → Except Err BVal) (d : D) (o : O),
          dg d o flag = Except.error (Err.bEmpty msg) →
          update b2a dg d o flag = Except.error (Err.appNotFoundError notFoundMsg))
      ∧ (∀ (dg : S → U → O → Bool → Except Err BVal) (s : S) (u : U) (o : O),
          dg s u o flag = Except.error (Err.bEmpty msg) →
          upsert b2a dg s u o flag
            = Except.error (Err.appNotFoundError notFoundMsg)))
    ∧ (∀ (dg : O → Bool → Except Err BVal) (o : O),
        dg o flag = Except.error (Err.bEmpty msg) →
        destroy b2a dg o flag = Except.error (b2a (Err.bEmpty msg))) := by
  intro F O I D S U b2a hb msg flag
  refine ⟨⟨fun dg f o h => ?_, fun dg d o h => ?_, fun dg o h => ?_,
      fun dg f o h => ?_, fun dg f o h => ?_, fun dg i o h => ?_,
      fun dg d o h => ?_, fun dg d o h => ?_, fun dg s u o h => ?_⟩,
    ⟨fun dg f o h => ?_, fun dg d o h => ?_, fun dg f o h => ?_,
      fun dg f o h => ?_, fun dg i o h => ?_, fun dg d o h => ?_,
      fun dg d o h => ?_, fun dg s u o h => ?_⟩,
    fun dg o h => ?_⟩
  · show findChain b2a flag (dg f o flag) = _
    rw [h]; exact findChain_bNotFound b2a hb flag msg
  · show findChain b2a flag (dg d o flag) = _
    rw [h]; exact findChain_bNotFound b2a hb flag msg
  · show destroyChain b2a flag (dg o flag) = _
    rw [h]; exact destroyChain_bNotFound b2a hb flag msg
  · show findChain b2a flag (dg f o flag) = _
    rw [h]; exact findChain_bNotFound b2a hb flag msg
  · show findChain b2a flag (dg f o flag) = _
    rw [h]; exact findChain_bNotFound b2a hb flag msg
  · show findChain b2a flag (dg i o flag) = _
    rw [h]; exact findChain_bNotFound b2a hb flag msg
  · show findChain b2a flag (dg d o flag) = _
    rw [h]; exact findChain_bNotFound b2a hb flag msg
  · show updateChain b2a flag (dg d o flag) = _
    rw [h]; exact updateChain_bNotFound b2a hb flag msg
  · show updateChain b2a flag (dg s u o flag) = _
    rw [h]; exact updateChain_bNotFound b2a hb flag msg
  · show findChain b2a flag (dg f o flag) = _
    rw [h]; exact findChain_bEmpty b2a hb flag msg
  · show findChain b2a flag (dg d o flag) = _
    rw [h]; exact findChain_bEmpty b2a hb flag msg
  · show findChain b2a flag (dg f o flag) = _
    rw [h]; exact findChain_bEmpty b2a hb flag msg
  · show findChain b2a flag (dg f o flag) = _
    rw [h]; exact findChain_bEmpty b2a hb flag msg
  · show findChain b2a flag (dg i o flag) = _
    rw [h]; exact findChain_bEmpty b2a hb flag msg
  · show findChain b2a flag (dg d o flag) = _
    rw [h]; exact findChain_bEmpty b2a hb flag msg
  · show updateChain b2a flag (dg d o flag) = _
    rw [h]; exact updateChain_bEmpty b2a hb flag msg
  · show updateChain b2a flag (dg s u o flag) = _
    rw [h]; exact updateChain_bEmpty b2a hb flag msg
  · show destroyChain b2a flag (dg o flag) = _
    rw [h]; exact destroyChain_bEmpty b2a flag msg

/-- C1 (witness): concrete instances of the amended mapping — `findOne`
rejecting the not-found signal as `NotFoundError` and `findAll` rejecting
the empty-result signal as `NotFoundError`, under the spec-modelled
translation. -/
theorem claim_C1_witness :
    findOne bookshelfToApp
        (fun (_ : Nat) (_ : Nat) (_ : Bool) =>
          Except.error (Err.bNotFound emptySignalMsg)) 0 0 true
      = Except.error (Err.appNotFoundError notFoundMsg)
    ∧ findAll bookshelfToApp
        (fun (_ : Nat) (_ : Nat) (_ : Bool) =>
          Except.error (Err.bEmpty emptySignalMsg)) 0 0 false
      = Except.error (Err.appNotFoundError notFoundMsg) :=
  ⟨(claim_C1_amended Nat Nat Nat Nat Nat Nat bookshelfToApp (fun _ _ => rfl)
      emptySignalMsg true).1.1 _ 0 0 rfl,
   (claim_C1_amended Nat Nat Nat Nat Nat Nat bookshelfToApp (fun _ _ => rfl)
      emptySignalMsg false).2.1.2.2.1 _ 0 0 rfl⟩

/-- C6: for every operation, an underlying error matching none of the four
specifically caught signals reaches the final catch-all, so the operation
rejects with exactly the `bookshelfToApp`-translated error (stated for an
arbitrary translation function in the position of `bookshelfToApp`); and no
delegate rejection is ever suppressed — whenever the delegate rejects, the
operation rejects. -/
theorem claim_C6_generic_translation :
    ∀ (F O I D S U : Type) (b2a : Err → Err) (flag : Bool),
    (∀ e : Err,
        e.isBookshelfNotFound = false → e.isBookshelfEmpty = false →
        e.isBookshelfNoRowsDeleted = false → e.isBookshelfNoRowsUpdated = false →
        (∀ (dg : F → O → Bool → Except Err BVal) (f : F) (o : O),
            dg f o flag = Except.error e →
            findOne b2a dg f o flag = Except.error (b2a e))
        ∧ (∀ (dg : D → O → Bool → Except Err BVal) (d : D) (o : O),
            dg d o flag = Except.error e →
            create b2a dg d o flag = Except.error (b2a e))
        ∧ (∀ (dg : O → Bool → Except Err BVal) (o : O),
            dg o flag = Except.error e →
            destroy b2a dg o flag = Except.error (b2a e))
        ∧ (∀ (dg : F → O → Bool → Except Err BVal) (f : F) (o : O),
            dg f o flag = Except.error e →
            findAll b2a dg f o flag = Except.error (b2a e))
        ∧ (∀ (dg : F → O → Bool → Except Err BVal) (f : F) (o : O),
            dg f o flag = Except.error e →
            findWhere b2a dg f o flag = Except.error (b2a e))
        ∧ (∀ (dg : I → O → Bool → Except Err BVal) (i : I) (o : O),
            dg i o flag = Except.error e →
            findById b2a dg i o flag = Except.error (b2a e))
        ∧ (∀ (dg : D → O → Bool → Except Err BVal) (d : D) (o : O),
            dg d o flag = Except.error e →
            findOrCreate b2a dg d o flag = Except.error (b2a e))
        ∧ (∀ (dg : D → O → Bool → Except Err BVal) (d : D) (o : O),
            dg d o flag = Except.error e →
            update b2a dg d o flag = Except.error (b2a e))
        ∧ (∀ (dg : S → U → O → Bool → Except Err BVal) (s : S) (u : U) (o : O),
            dg s u o flag = Except.error e →
            upsert b2a dg s u o flag = Except.error (b2a e)))
    ∧ (∀ e : Err,
        (∀ (dg : F → O → Bool → Except Err BVal) (f : F) (o : O),
            dg f o flag = Except.error e →
            ∃ e2, findOne b2a dg f o flag = Except.error e2)
        ∧ (∀ (dg : D → O → Bool → Except Err BVal) (d : D) (o : O),
            dg d o flag = Except.error e →
            ∃ e2, create b2a dg d o flag = Except.error e2)
        ∧ (∀ (dg : O → Bool → Except Err BVal) (o : O),
            dg o flag = Except.error e →
            ∃ e2, destroy b2a dg o flag = Except.error e2)
        ∧ (∀ (dg : F → O → Bool → Except Err BVal) (f : F) (o : O),
            dg f o flag = Except.error e →
            ∃ e2, findAll b2a dg f o flag = Except.error e2)
        ∧ (∀ (dg : F → O → Bool → Except Err BVal) (f : F) (o : O),
            dg f o flag = Except.error e →
            ∃ e2, findWhere b2a dg f o flag = Except.error e2)
        ∧ (∀ (dg : I → O → Bool → Except Err BVal) (i : I) (o : O),
            dg i o flag = Except.error e →
            ∃ e2, findById b2a dg i o flag = Except.error e2)
        ∧ (∀ (dg : D → O → Bool → Except Err BVal) (d : D) (o : O),
            dg d o flag = Except.error e →
            ∃ e2, findOrCreate b2a dg d o flag = Except.error e2)
        ∧ (∀ (dg : D → O → Bool → Except Err BVal) (d : D) (o : O),
            dg d o flag = Except.error e →
            ∃ e2, update b2a dg d o flag = Except.error e2)
        ∧ (∀ (dg : S → U → O → Bool → Except Err BVal) (s : S) (u : U) (o : O),
            dg s u o flag = Except.error e →
            ∃ e2, upsert b2a dg s u o flag = Except.error e2)) := by
  intro F O I D S U b2a flag
  constructor
  · intro e h1 h2 h3 h4
    refine ⟨fun dg f o h => ?_, fun dg d o h => ?_, fun dg o h => ?_,
      fun dg f o h => ?_, fun dg f o h => ?_, fun dg i o h => ?_,
      fun dg d o h => ?_, fun dg d o h => ?_, fun dg s u o h => ?_⟩
    · show findChain b2a flag (dg f o flag) = _
      rw [h]; exact findChain_uncaught b2a flag e h1 h2
    · show findChain b2a flag (dg d o flag) = _
      rw [h]; exact findChain_uncaught b2a flag e h1 h2
    · show destroyChain b2a flag (dg o flag) = _
      rw [h]; exact destroyChain_uncaught b2a flag e h1 h3
    · show findChain b2a flag (dg f o flag) = _
      rw [h]; exact findChain_uncaught b2a flag e h1 h2
    · show findChain b2a flag (dg f o flag) = _
      rw [h]; exact findChain_uncaught b2a flag e h1 h2
    · show findChain b2a flag (dg i o flag) = _
      rw [h]; exact findChain_uncaught b2a flag e h1 h2
    · show findChain b2a flag (dg d o flag) = _
      rw [h]; exact findChain_uncaught b2a flag e h1 h2
    · show updateChain b2a flag (dg d o flag) = _
      rw [h]; exact updateChain_uncaught b2a flag e h1 h2 h4
    · show updateChain b2a flag (dg s u o flag) = _
      rw [h]; exact updateChain_uncaught b2a flag e h1 h2 h4
  · intro e
    refine ⟨fun dg f o h => ?_, fun dg d o h => ?_, fun dg o h => ?_,
      fun dg f o h => ?_, fun dg f o h => ?_, fun dg i o h => ?_,
      fun dg d o h => ?_, fun dg d o h => ?_, fun dg s u o h => ?_⟩
    · show ∃ e2, findChain b2a flag (dg f o flag) = Except.error e2
      rw [h]; exact findChain_rejects b2a flag e
    · show ∃ e2, findChain b2a flag (dg d o flag) = Except.error e2
      rw [h]; exact findChain_rejects b2a flag e
    · show ∃ e2, destroyChain b2a flag (dg o flag) = Except.error e2
      rw [h]; exact destroyChain_rejects b2a flag e
    · show ∃ e2, findChain b2a flag (dg f o flag) = Except.error e2
      rw [h]; exact findChain_rejects b2a flag e
    · show ∃ e2, findChain b2a flag (dg f o flag) = Except.error e2
      rw [h]; exact findChain_rejects b2a flag e
    · show ∃ e2, findChain b2a flag (dg i o flag) = Except.error e2
      rw [h]; exact findChain_rejects b2a flag e
    · show ∃ e2, findChain b2a flag (dg d o flag) = Except.error e2
      rw [h]; exact findChain_rejects b2a flag e
    · show ∃ e2, updateChain b2a flag (dg d o flag) = Except.error e2
      rw [h]; exact updateChain_rejects b2a flag e
    · show ∃ e2, updateChain b2a flag (dg s u o flag) = Except.error e2
      rw [h]; exact updateChain_rejects b2a flag e

/-- C6 (witness): a concrete unrecognized underlying error (a generic
database failure) is rejected by `findOne` after passing through the
spec-modelled translation, which forwards it unchanged. -/
theorem claim_C6_witness :
    findOne bookshelfToApp
        (fun (_ : Nat) (_ : Nat) (_ : Bool) =>
          Except.error (Err.other 42 emptySignalMsg)) 0 0 true
      = Except.error (bookshelfToApp (Err.other 42 emptySignalMsg)) :=
  ((claim_C6_generic_translation Nat Nat Nat Nat Nat Nat bookshelfToApp true).1
      (Err.other 42 emptySignalMsg) rfl rfl rfl rfl).1 _ 0 0 rfl

/-- C8: every operation forwards its arguments verbatim and uninterpreted to
the underlying delegate and inspects only the trailing boolean conversion
flag — formally, the operation's outcome depends on the filter, options bag
and other arguments only through the value the delegate settles with at
exactly those arguments: two delegates (or argument lists) whose delegate
call settles identically yield identical operation outcomes. -/
theorem claim_C8_options_uninterpreted :
    ∀ (F O I D S U : Type) (b2a : Err → Err) (b : Bool),
    (∀ (dg1 dg2 : F → O → Bool → Except Err BVal) (f1 f2 : F) (o1 o2 : O),
        dg1 f1 o1 b = dg2 f2 o2 b →
        findOne b2a dg1 f1 o1 b = findOne b2a dg2 f2 o2 b)
    ∧ (∀ (dg1 dg2 : D → O → Bool → Except Err BVal) (d1 d2 : D) (o1 o2 : O),
        dg1 d1 o1 b = dg2 d2 o2 b →
        create b2a dg1 d1 o1 b = create b2a dg2 d2 o2 b)
    ∧ (∀ (dg1 dg2 : O → Bool → Except Err BVal) (o1 o2 : O),
        dg1 o1 b = dg2 o2 b →
        destroy b2a dg1 o1 b = destroy b2a dg2 o2 b)
    ∧ (∀ (dg1 dg2 : F → O → Bool → Except Err BVal) (f1 f2 : F) (o1 o2 : O),
        dg1 f1 o1 b = dg2 f2 o2 b →
        findAll b2a dg1 f1 o1 b = findAll b2a dg2 f2 o2 b)
    ∧ (∀ (dg1 dg2 : F → O → Bool → Except Err BVal) (f1 f2 : F) (o1 o2 : O),
        dg1 f1 o1 b = dg2 f2 o2 b →
        findWhere b2a dg1 f1 o1 b = findWhere b2a dg2 f2 o2 b)
    ∧ (∀ (dg1 dg2 : I → O → Bool → Except Err BVal) (i1 i2 : I) (o1 o2 : O),
        dg1 i1 o1 b = dg2 i2 o2 b →
        findById b2a dg1 i1 o1 b = findById b2a dg2 i2 o2 b)
    ∧ (∀ (dg1 dg2 : D → O → Bool → Except Err BVal) (d1 d2 : D) (o1 o2 : O),
        dg1 d1 o1 b = dg2 d2 o2 b →
        findOrCreate b2a dg1 d1 o1 b = findOrCreate b2a dg2 d2 o2 b)
    ∧ (∀ (dg1 dg2 : D → O → Bool → Except Err BVal) (d1 d2 : D) (o1 o2 : O),
        dg1 d1 o1 b = dg2 d2 o2 b →
        update b2a dg1 d1 o1 b = update b2a dg2 d2 o2 b)
    ∧ (∀ (dg1 dg2 : S → U → O → Bool → Except Err BVal)
        (s1 s2 : S) (u1 u2 : U) (o1 o2 : O),
        dg1 s1 u1 o1 b = dg2 s2 u2 o2 b →
        upsert b2a dg1 s1 u1 o1 b = upsert b2a dg2 s2 u2 o2 b) := by
  intro F O I D S U b2a b
  refine ⟨fun dg1 dg2 f1 f2 o1 o2 h => ?_, fun dg1 dg2 d1 d2 o1 o2 h => ?_,
    fun dg1 dg2 o1 o2 h => ?_, fun dg1 dg2 f1 f2 o1 o2 h => ?_,
    fun dg1 dg2 f1 f2 o1 o2 h => ?_, fun dg1 dg2 i1 i2 o1 o2 h => ?_,
    fun dg1 dg2 d1 d2 o1 o2 h => ?_, fun dg1 dg2 d1 d2 o1 o2 h => ?_,
    fun dg1 dg2 s1 s2 u1 u2 o1 o2 h => ?_⟩
  · show findChain b2a b (dg1 f1 o1 b) = findChain b2a b (dg2 f2 o2 b)
    rw [h]
  · show findChain b2a b (dg1 d1 o1 b) = findChain b2a b (dg2 d2 o2 b)
    rw [h]
  · show destroyChain b2a b (dg1 o1 b) = destroyChain b2a b (dg2 o2 b)
    rw [h]
  · show findChain b2a b (dg1 f1 o1 b) = findChain b2a b (dg2 f2 o2 b)
    rw [h]
  · show findChain b2a b (dg1 f1 o1 b) = findChain b2a b (dg2 f2 o2 b)
    rw [h]
  · show findChain b2a b (dg1 i1 o1 b) = findChain b2a b (dg2 i2 o2 b)
    rw [h]
  · show findChain b2a b (dg1 d1 o1 b) = findChain b2a b (dg2 d2 o2 b)
    rw [h]
  · show updateChain b2a b (dg1 d1 o1 b) = updateChain b2a b (dg2 d2 o2 b)
    rw [h]
  · show updateChain b2a b (dg1 s1 u1 o1 b) = updateChain b2a b (dg2 s2 u2 o2 b)
    rw [h]

/-- C8 (witness): two delegates that differ elsewhere but settle identically
at the given arguments yield identical `findOne` outcomes. -/
theorem claim_C8_witness :
    findOne bookshelfToApp
        (fun (_ : Nat) (_ : Nat) (_ : Bool) => Except.ok BVal.null) 0 0 true
      = findOne bookshelfToApp
          (fun (f : Nat) (_ : Nat) (_ : Bool) =>
            if 0 < f then Except.error (Err.bNotFound notFoundMsg)
            else Except.ok BVal.null) 0 0 true :=
  (claim_C8_options_uninterpreted Nat Nat Nat Nat Nat Nat bookshelfToApp true).1
    _ _ 0 0 0 0 rfl

/-- C10: whenever one of the four specifically caught underlying signals is
re-signaled, the application-level error carries a fixed constant message
(the literal strings NotFoundError, NoRowsDeletedError, NoRowsUpdatedError)
and no message or other information from the underlying error survives: the
rejection is the same constant error for every underlying message. -/
theorem claim_C10_fixed_constant_messages :
    notFoundMsg = "NotFoundError"
    ∧ noRowsDeletedMsg = "NoRowsDeletedError"
    ∧ noRowsUpdatedMsg = "NoRowsUpdatedError"
    ∧ (∀ (F O D : Type) (b2a : Err → Err), AppPreserving b2a →
      ∀ (msg : String) (flag : Bool),
      (∀ (dg : F → O → Bool → Except Err BVal) (f : F) (o : O),
          dg f o flag = Except.error (Err.bNotFound msg) →
          findOne b2a dg f o flag
            = Except.error (Err.appNotFoundError notFoundMsg))
      ∧ (∀ (dg : F → O → Bool → Except Err BVal) (f : F) (o : O),
          dg f o flag = Except.error (Err.bEmpty msg) →
          findOne b2a dg f o flag
            = Except.error (Err.appNotFoundError notFoundMsg))
      ∧ (∀ (dg : O → Bool → Except Err BVal) (o : O),
          dg o flag = Except.error (Err.bNotFound msg) →
          destroy b2a dg o flag
            = Except.error (Err.appNotFoundError notFoundMsg))
      ∧ (∀ (dg : O → Bool → Except Err BVal) (o : O),
          dg o flag = Except.error (Err.bNoRowsDeleted msg) →
          destroy b2a dg o flag
            = Except.error (Err.appNoRowsDeletedError noRowsDeletedMsg))
      ∧ (∀ (dg : D → O → Bool → Except Err BVal) (d : D) (o : O),
          dg d o flag = Except.error (Err.bNoRowsUpdated msg) →
          update b2a dg d o flag
            = Except.error (Err.appNoRowsUpdatedError noRowsUpdatedMsg))) := by
  refine ⟨rfl, rfl, rfl, ?_⟩
  intro F O D b2a hb msg flag
  refine ⟨fun dg f o h => ?_, fun dg f o h => ?_, fun dg o h => ?_,
    fun dg o h => ?_, fun dg d o h => ?_⟩
  · show findChain b2a flag (dg f o flag) = _
    rw [h]; exact findChain_bNotFound b2a hb flag msg
  · show findChain b2a flag (dg f o flag) = _
    rw [h]; exact findChain_bEmpty b2a hb flag msg
  · show destroyChain b2a flag (dg o flag) = _
    rw [h]; exact destroyChain_bNotFound b2a hb flag msg
  · show destroyChain b2a flag (dg o flag) = _
    rw [h]; exact destroyChain_bNoRowsDeleted b2a hb flag msg
  · show updateChain b2a flag (dg d o flag) = _
    rw [h]; exact updateChain_bNoRowsUpdated b2a hb flag msg

/-- C10 (witness): an underlying not-found error carrying an arbitrary
message is re-signaled by `findOne` with the constant message, none of the
underlying message surviving. -/
theorem claim_C10_witness :
    findOne bookshelfToApp
        (fun (_ : Nat) (_ : Nat) (_ : Bool) =>
          Except.error (Err.bNotFound illegalArgMsg)) 0 0 true
      = Except.error (Err.appNotFoundError notFoundMsg) :=
  (claim_C10_fixed_constant_messages.2.2.2 Nat Nat Nat bookshelfToApp
      (fun _ _ => rfl) illegalArgMsg true).1 _ 0 0 rfl

end QuantalBaseModel
